import Mathlib

/-!
# octops-fleet-gc: the process wrapper `cmd/main.go`

A shallow embedding of `main` and `exitIfErr` from `cmd/main.go`, followed by
the reconciliation core it starts, which is not among the sources and is
modelled from the specification.

The calls that leave the file (client-go, the collector package, the
broadcaster, controller-runtime health checks) are fields of a `World`: each
is a function of the arguments `main` passes, so every behaviour of the
collaborators is covered by quantifying over `World`.  A run of `main` is a
`Proc`: the ordered list of calls it made (`Event`s) and how it ended.
-/

namespace FleetGC

/-! ## Values exchanged with the collaborators -/

/-- Go `error` values; `none : Option Error` is the nil error. -/
abbrev Error := String

/-- Go `time.Duration`: a count of nanoseconds. -/
abbrev Duration := Int

/-- Go `time.Second`. -/
def Second : Duration := 1000000000

/-- Go `os.Signal`, by signal number. -/
abbrev Signal := Nat

/-- The signal `os.Interrupt` (SIGINT). -/
def os.Interrupt : Signal := 2

/-- The signal `syscall.SIGTERM`. -/
def syscall.SIGTERM : Signal := 15

/-- Contexts: `context.Background()` and the contexts derived from a parent by
`signal.NotifyContext`, cancelled when one of the listed signals arrives. -/
inductive Context
  | Background
  | Notify (parent : Context) (signals : List Signal)
  deriving DecidableEq, Repr

/-- Whether the arrival of signal `s` cancels the context. -/
def Context.cancelledBy : Context → Signal → Bool
  | .Background, _ => false
  | .Notify parent signals, s => decide (s ∈ signals) || parent.cancelledBy s

/-- The object types handed to `WithWatcherFor`: `v1.Fleet` and
`autoscaling.FleetAutoscaler`. -/
inductive ResourceKind
  | Fleet
  | FleetAutoscaler
  deriving DecidableEq, Repr

/-- A `*rest.Config` returned by `clientcmd.BuildConfigFromFlags`. -/
structure RestConfig where
  host : String
  deriving DecidableEq, Repr

/-- The value returned by `collector.NewFleetCollector`. -/
structure FleetCollector where
  id : Nat
  deriving DecidableEq, Repr

/-- Log levels of go-kit `level`. -/
inductive Level
  | debug
  | info
  | warn
  | error
  deriving DecidableEq, Repr

/-- The go-kit logger built at the top of `main`: the key/value context added
by `log.With` and whether `level.NewFilter(…, level.AllowDebug())` wraps it.
`AllowDebug` lets every level through, so both shapes emit the same records. -/
structure Logger where
  context : List String
  debugFilter : Bool
  deriving DecidableEq, Repr

/-- An HTTP request as seen by a health checker. -/
structure Request where
  path : String
  deriving DecidableEq, Repr

/-- The controller-runtime `healthz.Checker`: `func(*http.Request) error`. -/
abbrev Checker := Request → Option Error

/-- The checker `healthz.Ping`: returns nil for every request. -/
def healthz.Ping : Checker := fun _ => none

/-- The `broadcaster.Config` literal built by `main` (the fields it sets). -/
structure Config where
  SyncPeriod : Duration
  ServerPort : Int
  MetricsBindAddress : String
  MaxConcurrentReconcile : Int
  deriving DecidableEq, Repr

/-- The broadcaster under construction, as far as `main` determines it: the
three arguments of `broadcaster.New`, the checks added to its manager and the
watchers registered, in call order. -/
structure Broadcaster where
  config : RestConfig
  broker : FleetCollector
  opts : Config
  healthzChecks : List (String × Checker)
  readyzChecks : List (String × Checker)
  watchers : List ResourceKind

/-- How a call of `bc.Start(ctx)` ends: it returns an error value (nil once
the context is cancelled), or it is still serving and has not returned. -/
inductive StartResult
  | returns (err : Option Error)
  | blocks
  deriving DecidableEq, Repr

/-- The four command-line flags after `kingpin.Parse()`: the values behind the
package-level pointers `debug`, `kubeconfig`, `syncPeriod`, `maxConcurrent`. -/
structure Flags where
  debug : Bool
  kubeconfig : String
  syncPeriod : Duration
  maxConcurrent : Int
  deriving DecidableEq, Repr

/-- What `kingpin.Parse()` reads: for each flag the text given on the command
line, if any, and the `KUBECONFIG` environment variable. -/
structure CommandLine where
  debug : Bool
  kubeconfig : Option String
  envKUBECONFIG : Option String
  syncPeriod : Option String
  maxConcurrent : Option String
  deriving DecidableEq, Repr

/-- The collaborators of `main`.  Each field is the result of the call of that
name as a function of its arguments. -/
structure World where
  /-- The string returned by `version.Info()`. -/
  versionInfo : String
  /-- The call `clientcmd.BuildConfigFromFlags(masterUrl, kubeconfigPath)`. -/
  BuildConfigFromFlags : String → String → RestConfig × Option Error
  /-- The call `collector.NewFleetCollector(ctx, logger, cfg, syncPeriod)`. -/
  NewFleetCollector : Context → Logger → RestConfig → Duration → FleetCollector × Option Error
  /-- The call `bc.Manager.AddHealthzCheck(name, check)`. -/
  AddHealthzCheck : Broadcaster → String → Checker → Option Error
  /-- The call `bc.Manager.AddReadyzCheck(name, check)`. -/
  AddReadyzCheck : Broadcaster → String → Checker → Option Error
  /-- The call `bc.Build()`. -/
  Build : Broadcaster → Option Error
  /-- The call `bc.Start(ctx)`. -/
  Start : Broadcaster → Context → StartResult
  /-- Go `time.ParseDuration`, used by kingpin for a `Duration()` flag. -/
  ParseDuration : String → Option Duration
  /-- Go integer parsing, used by kingpin for an `Int()` flag. -/
  ParseInt : String → Option Int

/-! ## Runs -/

/-- The calls `main` makes, with their arguments and, where `main` looks at it,
the error they returned. -/
inductive Event
  | log (lvl : Level) (keyvals : List String)
  | notifyContext (ctx : Context)
  | buildConfigFromFlags (masterUrl kubeconfigPath : String) (err : Option Error)
  | newFleetCollector (ctx : Context) (cfg : RestConfig) (period : Duration) (err : Option Error)
  | newBroadcaster (cfg : RestConfig) (broker : FleetCollector) (opts : Config)
  | addHealthzCheck (name : String) (check : Checker) (err : Option Error)
  | addReadyzCheck (name : String) (check : Checker) (err : Option Error)
  | withWatcherFor (kind : ResourceKind)
  | build (registered : List ResourceKind) (err : Option Error)
  | start (ctx : Context)
  | startReturned (err : Option Error)
  | done (ctx : Context)
  | exit (code : Int)

/-- How a piece of `main` ends: it falls through to the next statement with a
value, the process is terminated by `os.Exit`, or it is blocked in a call
that has not returned. -/
inductive Outcome (α : Type)
  | continues (value : α)
  | exited (code : Int)
  | blocked

/-- A piece of `main`: the calls made so far and how it ended. -/
structure Proc (α : Type) where
  trace : List Event
  outcome : Outcome α

/-- A statement without calls. -/
def Proc.pure {α : Type} (a : α) : Proc α := ⟨[], .continues a⟩

/-- Sequencing: the statements after an `os.Exit` or a blocked call do not run. -/
def Proc.bind {α β : Type} (p : Proc α) (f : α → Proc β) : Proc β :=
  match p.outcome with
  | .continues a => ⟨p.trace ++ (f a).trace, (f a).outcome⟩
  | .exited code => ⟨p.trace, .exited code⟩
  | .blocked => ⟨p.trace, .blocked⟩

instance : Monad Proc where
  pure := Proc.pure
  bind := Proc.bind

/-- Record one call and continue. -/
@[simp]
def emit (e : Event) : Proc Unit := ⟨[e], .continues ()⟩

/-- The call `os.Exit(code)`: the process ends at once, deferred calls do not run. -/
@[simp]
def os.Exit (code : Int) : Proc Unit := ⟨[.exit code], .exited code⟩

/-- The logger `log.NewJSONLogger(os.Stdout)`. -/
def log.NewJSONLogger : Logger := ⟨[], false⟩

/-- The call `log.With(logger, keyvals...)`. -/
def log.With (logger : Logger) (keyvals : List String) : Logger :=
  { logger with context := logger.context ++ keyvals }

/-- The call `level.NewFilter(logger, level.AllowDebug())`. -/
def level.NewFilter (logger : Logger) : Logger :=
  { logger with debugFilter := true }

/-- The call `level.Info(logger).Log(keyvals...)`. -/
@[simp]
def level.Info (_logger : Logger) (keyvals : List String) : Proc Unit :=
  emit (.log .info keyvals)

/-- The call `level.Error(logger).Log(keyvals...)`. -/
@[simp]
def level.Error (_logger : Logger) (keyvals : List String) : Proc Unit :=
  emit (.log .error keyvals)

/-- The call `signal.NotifyContext(parent, signals...)`. -/
@[simp]
def signal.NotifyContext (parent : Context) (signals : List Signal) : Proc Context :=
  ⟨[.notifyContext (.Notify parent signals)], .continues (.Notify parent signals)⟩

/-- The call `clientcmd.BuildConfigFromFlags`. -/
@[simp]
def clientcmd.BuildConfigFromFlags (w : World) (masterUrl kubeconfigPath : String) :
    Proc (RestConfig × Option Error) :=
  let r := w.BuildConfigFromFlags masterUrl kubeconfigPath
  ⟨[.buildConfigFromFlags masterUrl kubeconfigPath r.2], .continues r⟩

/-- The call `collector.NewFleetCollector`. -/
@[simp]
def collector.NewFleetCollector (w : World) (ctx : Context) (logger : Logger)
    (cfg : RestConfig) (period : Duration) : Proc (FleetCollector × Option Error) :=
  let r := w.NewFleetCollector ctx logger cfg period
  ⟨[.newFleetCollector ctx cfg period r.2], .continues r⟩

/-- The call `broadcaster.New(cfg, broker, opts)`. -/
@[simp]
def broadcaster.New (cfg : RestConfig) (broker : FleetCollector) (opts : Config) :
    Proc Broadcaster :=
  ⟨[.newBroadcaster cfg broker opts], .continues ⟨cfg, broker, opts, [], [], []⟩⟩

/-- The call `bc.Manager.AddHealthzCheck(name, check)`; the check is kept when
the call succeeds. -/
@[simp]
def Broadcaster.AddHealthzCheck (w : World) (bc : Broadcaster) (name : String)
    (check : Checker) : Proc (Broadcaster × Option Error) :=
  let err := w.AddHealthzCheck bc name check
  ⟨[.addHealthzCheck name check err],
    .continues (if err.isNone then
      { bc with healthzChecks := bc.healthzChecks ++ [(name, check)] } else bc, err)⟩

/-- The call `bc.Manager.AddReadyzCheck(name, check)`; the check is kept when
the call succeeds. -/
@[simp]
def Broadcaster.AddReadyzCheck (w : World) (bc : Broadcaster) (name : String)
    (check : Checker) : Proc (Broadcaster × Option Error) :=
  let err := w.AddReadyzCheck bc name check
  ⟨[.addReadyzCheck name check err],
    .continues (if err.isNone then
      { bc with readyzChecks := bc.readyzChecks ++ [(name, check)] } else bc, err)⟩

/-- The call `bc.WithWatcherFor(obj)`. -/
@[simp]
def Broadcaster.WithWatcherFor (bc : Broadcaster) (kind : ResourceKind) : Proc Broadcaster :=
  ⟨[.withWatcherFor kind], .continues { bc with watchers := bc.watchers ++ [kind] }⟩

/-- The call `bc.Build()`. -/
@[simp]
def Broadcaster.Build (w : World) (bc : Broadcaster) : Proc (Option Error) :=
  ⟨[.build bc.watchers (w.Build bc)], .continues (w.Build bc)⟩

/-- The call `bc.Start(ctx)`. -/
@[simp]
def Broadcaster.Start (w : World) (bc : Broadcaster) (ctx : Context) : Proc (Option Error) :=
  match w.Start bc ctx with
  | .returns err => ⟨[.start ctx, .startReturned err], .continues err⟩
  | .blocks => ⟨[.start ctx], .blocked⟩

/-- The deferred `done()` of `main`, run when `main` returns. -/
@[simp]
def done (ctx : Context) : Proc Unit := emit (.done ctx)

/-! ## The program -/

/-- The flag declarations of main.go 22-27 under `kingpin.Parse()`: a flag that
is not given takes its `Envar`, then its `Default` text ("15s", "5"), then the
zero value; the text of a `Duration()` or `Int()` flag goes through the
parser.  `none` when a text does not parse: kingpin then ends the process
before the body of `main` runs. -/
def kingpin.Parse (w : World) (cl : CommandLine) : Option Flags :=
  match w.ParseDuration (cl.syncPeriod.getD "15s"), w.ParseInt (cl.maxConcurrent.getD "5") with
  | some period, some concurrent =>
      some
        { debug := cl.debug
          kubeconfig := (cl.kubeconfig.orElse fun _ => cl.envKUBECONFIG).getD ""
          syncPeriod := period
          maxConcurrent := concurrent }
  | _, _ => none

/-- The function `exitIfErr` (main.go 82-87). -/
def exitIfErr (logger : Logger) (err : Option Error) : Proc Unit :=
  match err with
  | some e => do
      level.Error logger ["err", e]
      os.Exit 1
  | none => pure ()

/-- The function `main` (main.go 30-80), after `kingpin.Parse()` has filled in
the flags. -/
def main (w : World) (flags : Flags) : Proc Unit := do
  let logger := log.With log.NewJSONLogger ["ts", "caller"]
  let logger := if flags.debug then level.NewFilter logger else logger
  level.Info logger ["msg", w.versionInfo]
  let ctx ← signal.NotifyContext Context.Background [os.Interrupt, syscall.SIGTERM]
  let (cfg, err) ← clientcmd.BuildConfigFromFlags w "" flags.kubeconfig
  exitIfErr logger err
  let (fleetGC, err) ← collector.NewFleetCollector w ctx logger cfg flags.syncPeriod
  exitIfErr logger err
  let opts : Config :=
    { SyncPeriod := flags.syncPeriod
      ServerPort := 8090
      MetricsBindAddress := "0.0.0.0:8095"
      MaxConcurrentReconcile := flags.maxConcurrent }
  let bc ← broadcaster.New cfg fleetGC opts
  let (bc, err) ← bc.AddHealthzCheck w "healthz" healthz.Ping
  match err with
  | some err =>
      level.Error logger ["unable to set up health check", err]
      os.Exit 1
  | none => pure ()
  let (bc, err) ← bc.AddReadyzCheck w "readyz" healthz.Ping
  match err with
  | some err =>
      level.Error logger ["unable to set up ready check", err]
      os.Exit 1
  | none => pure ()
  let bc ← bc.WithWatcherFor ResourceKind.Fleet
  let bc ← bc.WithWatcherFor ResourceKind.FleetAutoscaler
  let err ← bc.Build w
  exitIfErr logger err
  level.Info logger ["msg", "starting fleet garbage collector"]
  let err ← bc.Start w ctx
  match err with
  | some err => exitIfErr logger (some err)
  | none => pure ()
  done ctx

/-- The context `main` obtains from `signal.NotifyContext`. -/
def rootCtx : Context := .Notify .Background [os.Interrupt, syscall.SIGTERM]

/-- The logger `main` uses. -/
def mainLogger (f : Flags) : Logger :=
  if f.debug then level.NewFilter (log.With log.NewJSONLogger ["ts", "caller"])
  else log.With log.NewJSONLogger ["ts", "caller"]

/-- What credential loading returns in the run of `main w f`. -/
def cfgR (w : World) (f : Flags) : RestConfig × Option Error :=
  w.BuildConfigFromFlags "" f.kubeconfig

/-- What the collector constructor returns in the run of `main w f`. -/
def collR (w : World) (f : Flags) : FleetCollector × Option Error :=
  w.NewFleetCollector rootCtx (mainLogger f) (cfgR w f).1 f.syncPeriod

/-- The `broadcaster.Config` literal of `main`. -/
def mainOpts (f : Flags) : Config := ⟨f.syncPeriod, 8090, "0.0.0.0:8095", f.maxConcurrent⟩

/-- The broadcaster as `broadcaster.New` returns it. -/
def bc0 (w : World) (f : Flags) : Broadcaster :=
  ⟨(cfgR w f).1, (collR w f).1, mainOpts f, [], [], []⟩

/-- The broadcaster after the liveness check was added. -/
def bc1 (w : World) (f : Flags) : Broadcaster :=
  ⟨(cfgR w f).1, (collR w f).1, mainOpts f, [("healthz", healthz.Ping)], [], []⟩

/-- The broadcaster on which `Build` and `Start` are called. -/
def bc4 (w : World) (f : Flags) : Broadcaster :=
  ⟨(cfgR w f).1, (collR w f).1, mainOpts f, [("healthz", healthz.Ping)],
    [("readyz", healthz.Ping)], [.Fleet, .FleetAutoscaler]⟩

/-- The calls of a run up to and including credential loading. -/
def upToCredentials (w : World) (f : Flags) (err : Option Error) : List Event :=
  [.log .info ["msg", w.versionInfo], .notifyContext rootCtx,
    .buildConfigFromFlags "" f.kubeconfig err]

/-- The calls of a run from the collector constructor to `broadcaster.New`. -/
def upToNew (w : World) (f : Flags) : List Event :=
  [.newFleetCollector rootCtx (cfgR w f).1 f.syncPeriod none,
    .newBroadcaster (cfgR w f).1 (collR w f).1 (mainOpts f)]

/-- The calls of a run from the readiness check to `Build`. -/
def upToBuild (err : Option Error) : List Event :=
  [.addReadyzCheck "readyz" healthz.Ping none, .withWatcherFor .Fleet,
    .withWatcherFor .FleetAutoscaler, .build [.Fleet, .FleetAutoscaler] err]

/-- The eight ways a run of `main` can go: which call returned the first
error (or did not return), and the calls made up to there. -/
inductive MainRun (w : World) (f : Flags) : Proc Unit → Prop
  | credentials (e : Error) (h : (cfgR w f).2 = some e) :
      MainRun w f ⟨upToCredentials w f (some e) ++ [.log .error ["err", e], .exit 1], .exited 1⟩
  | collector (e : Error) (h1 : (cfgR w f).2 = none) (h : (collR w f).2 = some e) :
      MainRun w f ⟨upToCredentials w f none ++
        [.newFleetCollector rootCtx (cfgR w f).1 f.syncPeriod (some e),
          .log .error ["err", e], .exit 1], .exited 1⟩
  | healthz (e : Error) (h1 : (cfgR w f).2 = none) (h2 : (collR w f).2 = none)
      (h : w.AddHealthzCheck (bc0 w f) "healthz" healthz.Ping = some e) :
      MainRun w f ⟨upToCredentials w f none ++ upToNew w f ++
        [.addHealthzCheck "healthz" healthz.Ping (some e),
          .log .error ["unable to set up health check", e], .exit 1], .exited 1⟩
  | readyz (e : Error) (h1 : (cfgR w f).2 = none) (h2 : (collR w f).2 = none)
      (h3 : w.AddHealthzCheck (bc0 w f) "healthz" healthz.Ping = none)
      (h : w.AddReadyzCheck (bc1 w f) "readyz" healthz.Ping = some e) :
      MainRun w f ⟨upToCredentials w f none ++ upToNew w f ++
        [.addHealthzCheck "healthz" healthz.Ping none,
          .addReadyzCheck "readyz" healthz.Ping (some e),
          .log .error ["unable to set up ready check", e], .exit 1], .exited 1⟩
  | build (e : Error) (h1 : (cfgR w f).2 = none) (h2 : (collR w f).2 = none)
      (h3 : w.AddHealthzCheck (bc0 w f) "healthz" healthz.Ping = none)
      (h4 : w.AddReadyzCheck (bc1 w f) "readyz" healthz.Ping = none)
      (h : w.Build (bc4 w f) = some e) :
      MainRun w f ⟨upToCredentials w f none ++ upToNew w f ++
        [.addHealthzCheck "healthz" healthz.Ping none] ++ upToBuild (some e) ++
        [.log .error ["err", e], .exit 1], .exited 1⟩
  | serving (h1 : (cfgR w f).2 = none) (h2 : (collR w f).2 = none)
      (h3 : w.AddHealthzCheck (bc0 w f) "healthz" healthz.Ping = none)
      (h4 : w.AddReadyzCheck (bc1 w f) "readyz" healthz.Ping = none)
      (h5 : w.Build (bc4 w f) = none) (h : w.Start (bc4 w f) rootCtx = .blocks) :
      MainRun w f ⟨upToCredentials w f none ++ upToNew w f ++
        [.addHealthzCheck "healthz" healthz.Ping none] ++ upToBuild none ++
        [.log .info ["msg", "starting fleet garbage collector"], .start rootCtx], .blocked⟩
  | startFailed (e : Error) (h1 : (cfgR w f).2 = none) (h2 : (collR w f).2 = none)
      (h3 : w.AddHealthzCheck (bc0 w f) "healthz" healthz.Ping = none)
      (h4 : w.AddReadyzCheck (bc1 w f) "readyz" healthz.Ping = none)
      (h5 : w.Build (bc4 w f) = none)
      (h : w.Start (bc4 w f) rootCtx = .returns (some e)) :
      MainRun w f ⟨upToCredentials w f none ++ upToNew w f ++
        [.addHealthzCheck "healthz" healthz.Ping none] ++ upToBuild none ++
        [.log .info ["msg", "starting fleet garbage collector"], .start rootCtx,
          .startReturned (some e), .log .error ["err", e], .exit 1], .exited 1⟩
  | returned (h1 : (cfgR w f).2 = none) (h2 : (collR w f).2 = none)
      (h3 : w.AddHealthzCheck (bc0 w f) "healthz" healthz.Ping = none)
      (h4 : w.AddReadyzCheck (bc1 w f) "readyz" healthz.Ping = none)
      (h5 : w.Build (bc4 w f) = none) (h : w.Start (bc4 w f) rootCtx = .returns none) :
      MainRun w f ⟨upToCredentials w f none ++ upToNew w f ++
        [.addHealthzCheck "healthz" healthz.Ping none] ++ upToBuild none ++
        [.log .info ["msg", "starting fleet garbage collector"], .start rootCtx,
          .startReturned none, .done rootCtx], .continues ()⟩

/-! ## The reconciliation core, from the specification -/

/-- Modelled from the spec: `Build()` of the core (the broadcaster package is
not among the sources).  It validates that at least one watch registration
exists and returns an error for a non-positive concurrency ceiling or a
non-positive sync period; otherwise it returns nil. -/
def Lifecycle.Build (bc : Broadcaster) : Option Error :=
  if bc.watchers.isEmpty then some "no watch registration"
  else if bc.opts.MaxConcurrentReconcile ≤ 0 then some "invalid concurrency ceiling"
  else if bc.opts.SyncPeriod ≤ 0 then some "invalid sync period"
  else none

/-- Modelled from the spec: WorkItemKey, one reconcilable object identified by
resource kind, namespace and name. -/
structure WorkItemKey where
  kind : ResourceKind
  ns : String
  name : String
  deriving DecidableEq, Repr

/-- Modelled from the spec: QueueEntry, a key with a not-before timestamp and
a retry counter. -/
structure QueueEntry where
  key : WorkItemKey
  notBefore : Nat
  retries : Nat
  deriving DecidableEq, Repr

/-- Modelled from the spec: ReconcileResult, the outcome of one dispatch. -/
inductive ReconcileResult
  | Done
  | RequeueAfter (d : Nat)
  | RequeueImmediate
  | Error (cause : String)
  deriving DecidableEq, Repr

/-- Modelled from the spec: the shared state of the core (work queue §4.2,
concurrency limiter §4.3, dispatcher §4.4), which lives behind `bc.Start` in
the broadcaster package and is not among the sources.  `permits` are the free permits of
the pool of size `ceiling`; `acquired` counts the workers that hold a permit
and have not dequeued yet; `queue` holds the entries in arrival order; `held`
holds the entries a worker has dequeued and not yet marked in flight;
`inFlight` holds the entries being dispatched (marked in flight, decision
function running); `dirty` the keys enqueued again while in flight. -/
structure Engine where
  ceiling : Nat
  permits : Nat
  acquired : Nat
  now : Nat
  queue : List QueueEntry
  held : List QueueEntry
  inFlight : List QueueEntry
  dirty : List WorkItemKey
  closed : Bool
  baseDelay : Nat
  maxDelay : Nat
  deriving Repr

/-- Modelled from the spec: the atomic operations whose interleaving makes an
execution of the core. -/
inductive Action
  /-- A watch notification or a resync enqueues the key. -/
  | enqueue (key : WorkItemKey)
  /-- Time advances by `d`. -/
  | tick (d : Nat)
  /-- The `Acquire()` of one worker is tried. -/
  | acquire
  /-- One worker holding a permit dequeues the first visible key. -/
  | dequeue
  /-- The worker that dequeued `key` marks it in flight; its dispatch starts. -/
  | mark (key : WorkItemKey)
  /-- The decision function running for `key` returns `result`. -/
  | complete (key : WorkItemKey) (result : ReconcileResult)
  /-- The cancellation signal arrives; the queue is closed. -/
  | cancel
  deriving DecidableEq, Repr

/-- Modelled from the spec: the state `Start` begins with after a successful
`Build()`: a permit pool sized to `MaxConcurrentReconcile`, nothing queued,
nothing in flight. -/
def Engine.init (bc : Broadcaster) : Engine :=
  { ceiling := bc.opts.MaxConcurrentReconcile.toNat
    permits := bc.opts.MaxConcurrentReconcile.toNat
    acquired := 0
    now := 0
    queue := []
    held := []
    inFlight := []
    dirty := []
    closed := false
    baseDelay := 1
    maxDelay := 1024 }

/-- Modelled from the spec: `Enqueue`/`EnqueueAfter`.  Rejected after
`Close()`; a key in flight is marked dirty; a key already queued is left
alone; otherwise an entry is appended. -/
def Engine.enqueueAt (s : Engine) (key : WorkItemKey) (notBefore retries : Nat) : Engine :=
  if s.closed then s
  else if key ∈ s.inFlight.map QueueEntry.key then
    { s with dirty := if key ∈ s.dirty then s.dirty else s.dirty ++ [key] }
  else if key ∈ s.queue.map QueueEntry.key then s
  else { s with queue := s.queue ++ [⟨key, notBefore, retries⟩] }

/-- Modelled from the spec: bounded exponential backoff, doubling from the
base delay up to the ceiling. -/
def Engine.backoff (s : Engine) (retries : Nat) : Nat :=
  min (s.baseDelay * 2 ^ retries) s.maxDelay

/-- Modelled from the spec: `Acquire()`.  A permit is taken when one is free
and the process is not cancelled; otherwise the worker stays suspended. -/
def Engine.acquire (s : Engine) : Engine :=
  if s.closed || s.permits == 0 then s
  else { s with permits := s.permits - 1, acquired := s.acquired + 1 }

/-- Modelled from the spec: `Dequeue()` by a worker that holds a permit: the
first visible entry in arrival order leaves the queue and is in the hands of
the worker.  Without a visible entry the worker stays blocked; after
cancellation no dequeue begins. -/
def Engine.dequeue (s : Engine) : Engine :=
  if s.closed || s.acquired == 0 then s
  else
    match s.queue.find? (fun e => e.notBefore ≤ s.now) with
    | none => s
    | some e =>
        { s with acquired := s.acquired - 1, queue := s.queue.erase e,
                 held := s.held ++ [e] }

/-- Modelled from the spec: `MarkInFlight`, the step of the dispatcher after
`Dequeue()`: the worker that dequeued `key` marks it in flight and its
dispatch starts. -/
def Engine.mark (s : Engine) (key : WorkItemKey) : Engine :=
  match s.held.find? (fun e => e.key = key) with
  | none => s
  | some e => { s with held := s.held.erase e, inFlight := s.inFlight ++ [e] }

/-- Modelled from the spec: `MarkDone`/`Release` at the end of a dispatch: the
in-flight marker of the entry is dropped, its permit returns to the pool and
its dirty mark is cleared. -/
def Engine.release (s : Engine) (e : QueueEntry) : Engine :=
  { s with inFlight := s.inFlight.erase e, permits := s.permits + 1,
           dirty := s.dirty.erase e.key }

/-- Modelled from the spec: what the dispatcher schedules for each result:
nothing for `Done`, a delayed entry for `RequeueAfter`, an immediate one for
`RequeueImmediate`, and for `Error` a delayed entry with backoff. -/
def Engine.requeue (s : Engine) (e : QueueEntry) : ReconcileResult → Engine
  | .Done => s
  | .RequeueAfter d => s.enqueueAt e.key (s.now + d) (e.retries + 1)
  | .RequeueImmediate => s.enqueueAt e.key s.now e.retries
  | .Error _ => s.enqueueAt e.key (s.now + s.backoff e.retries) (e.retries + 1)

/-- Modelled from the spec: the dispatcher interpreting the result of the
dispatch of `key`: the in-flight marker and the permit are released, the key
is re-enqueued as the result asks, and a key marked dirty meanwhile is
enqueued again. -/
def Engine.complete (s : Engine) (key : WorkItemKey) (result : ReconcileResult) : Engine :=
  match s.inFlight.find? (fun e => e.key = key) with
  | none => s
  | some e =>
      let s2 := (s.release e).requeue e result
      if key ∈ s.dirty then s2.enqueueAt key s2.now 0 else s2

/-- Modelled from the spec: one atomic operation of the core. -/
def Engine.step (s : Engine) : Action → Engine
  | .enqueue key => s.enqueueAt key s.now 0
  | .tick d => { s with now := s.now + d }
  | .acquire => s.acquire
  | .dequeue => s.dequeue
  | .mark key => s.mark key
  | .complete key result => s.complete key result
  | .cancel => { s with closed := true }

/-- Modelled from the spec: an execution, the operations applied in order. -/
def Engine.run (s : Engine) (acts : List Action) : Engine :=
  acts.foldl Engine.step s

/-- The number of dispatches in flight. -/
def Engine.inFlightCount (s : Engine) : Nat := s.inFlight.length

/-- Permits are conserved: each permit of the pool is free, or with a worker
that has not dequeued yet, or with a worker that holds a dequeued key, or with
a dispatch in flight. -/
def Engine.Conserved (s : Engine) : Prop :=
  s.permits + s.acquired + s.held.length + s.inFlight.length = s.ceiling

/-- The exit status of the process once a run of `main` is over: 0 when `main`
returns, the argument of `os.Exit` otherwise, none while a call is blocked. -/
def exitStatus (p : Proc Unit) : Option Int :=
  match p.outcome with
  | .continues _ => some 0
  | .exited code => some code
  | .blocked => none

/-- The kinds registered by the calls of `WithWatcherFor` in a list of calls,
in call order. -/
def registrations (t : List Event) : List ResourceKind :=
  t.filterMap fun e =>
    match e with
    | .withWatcherFor kind => some kind
    | _ => none

/-- The contexts created by the calls of `signal.NotifyContext` in a list of
calls. -/
def contextsCreated (t : List Event) : List Context :=
  t.filterMap fun e =>
    match e with
    | .notifyContext ctx => some ctx
    | _ => none

/-- The context a call is given, for the calls of `main` that take one. -/
def contextPassed : Event → Option Context
  | .newFleetCollector ctx _ _ _ => some ctx
  | .start ctx => some ctx
  | _ => none

/-- The error value a step of `main` returned, for the six steps whose error
`main` checks: credential loading, collector construction, the two check
registrations, `Build` and `Start`. -/
def stepError : Event → Option Error
  | .buildConfigFromFlags _ _ err => err
  | .newFleetCollector _ _ _ err => err
  | .addHealthzCheck _ _ err => err
  | .addReadyzCheck _ _ err => err
  | .build _ err => err
  | .startReturned err => err
  | _ => none

/-! ## Sample collaborators -/

/-- A world in which every call succeeds and `Start` returns nil. -/
def World.quiet : World where
  versionInfo := "v0.0.1"
  BuildConfigFromFlags := fun _ _ => (⟨"https://cluster"⟩, none)
  NewFleetCollector := fun _ _ _ _ => (⟨1⟩, none)
  AddHealthzCheck := fun _ _ _ => none
  AddReadyzCheck := fun _ _ _ => none
  Build := fun _ => none
  Start := fun _ _ => .returns none
  ParseDuration := fun s =>
    if s = "15s" then some (15 * Second) else if s = "1m" then some (60 * Second) else none
  ParseInt := fun s => if s = "5" then some 5 else if s = "2" then some 2 else none

/-- The quiet world, except that no cluster credentials can be loaded. -/
def World.noCredentials : World :=
  { World.quiet with BuildConfigFromFlags := fun _ _ => (⟨""⟩, some "no kubeconfig") }

/-- The quiet world, except that the liveness check cannot be registered. -/
def World.healthzFails : World :=
  { World.quiet with AddHealthzCheck := fun _ _ _ => some "already started" }

/-- The quiet world, except that `Build` returns an error. -/
def World.buildFails : World :=
  { World.quiet with Build := fun _ => some "invalid configuration" }

/-- The quiet world with the core of the specification behind `Build`. -/
def World.withCore : World :=
  { World.quiet with Build := Lifecycle.Build }

/-- The flag values of a run without flags. -/
def Flags.defaults : Flags := ⟨false, "", 15 * Second, 5⟩

/-- A command line without flags. -/
def CommandLine.empty : CommandLine := ⟨false, none, none, none, none⟩

/-- First work item. -/
def kA : WorkItemKey := ⟨.Fleet, "default", "a"⟩

/-- Second work item. -/
def kB : WorkItemKey := ⟨.Fleet, "default", "b"⟩

/-- Third work item. -/
def kC : WorkItemKey := ⟨.FleetAutoscaler, "default", "c"⟩

/-- A broadcaster with ceiling 2 and both watchers, as `main` builds it with
`--max-concurrent=2`. -/
def bcTwo : Broadcaster :=
  ⟨⟨"https://cluster"⟩, ⟨1⟩, ⟨15 * Second, 8090, "0.0.0.0:8095", 2⟩,
    [("healthz", healthz.Ping)], [("readyz", healthz.Ping)], [.Fleet, .FleetAutoscaler]⟩

/-- An execution that saturates the ceiling of `bcTwo`: three keys arrive, three
workers try to acquire, two dispatches start, and the first key is enqueued
again while its dispatch is in flight. -/
def busyTwo : List Action :=
  [.enqueue kA, .enqueue kB, .enqueue kC, .acquire, .acquire, .acquire,
    .dequeue, .mark kA, .dequeue, .mark kB, .dequeue, .enqueue kA]

@[simp]
theorem bind_continues {α β : Type} (t : List Event) (a : α) (f : α → Proc β) :
    (Bind.bind (⟨t, .continues a⟩ : Proc α) f) = ⟨t ++ (f a).trace, (f a).outcome⟩ := rfl

@[simp]
theorem bind_exited {α β : Type} (t : List Event) (c : Int) (f : α → Proc β) :
    (Bind.bind (⟨t, .exited c⟩ : Proc α) f) = ⟨t, .exited c⟩ := rfl

@[simp]
theorem bind_blocked {α β : Type} (t : List Event) (f : α → Proc β) :
    (Bind.bind (⟨t, .blocked⟩ : Proc α) f) = ⟨t, .blocked⟩ := rfl

@[simp]
theorem pure_eq {α : Type} (a : α) :
    (Pure.pure a : Proc α) = ⟨[], .continues a⟩ := rfl

/-- Every run of `main` is one of the eight of `MainRun`. -/
theorem main_run (w : World) (f : Flags) : MainRun w f (main w f) := by
  rcases h1 : (cfgR w f).2 with _ | e
  · rcases h2 : (collR w f).2 with _ | e
    · rcases h3 : w.AddHealthzCheck (bc0 w f) "healthz" healthz.Ping with _ | e
      · rcases h4 : w.AddReadyzCheck (bc1 w f) "readyz" healthz.Ping with _ | e
        · rcases h5 : w.Build (bc4 w f) with _ | e
          · rcases h6 : w.Start (bc4 w f) rootCtx with (_ | e) | _
            · convert MainRun.returned h1 h2 h3 h4 h5 h6 using 1
              simp only [cfgR, collR, bc0, bc1, bc4, mainLogger, mainOpts, rootCtx] at h1 h2 h3 h4 h5 h6
              simp [main, exitIfErr, level.Info, level.Error, emit, os.Exit,
                signal.NotifyContext, clientcmd.BuildConfigFromFlags,
                collector.NewFleetCollector, broadcaster.New, Broadcaster.AddHealthzCheck,
                Broadcaster.AddReadyzCheck, Broadcaster.WithWatcherFor, Broadcaster.Build,
                Broadcaster.Start, done, upToCredentials, upToNew, upToBuild, cfgR, collR,
                mainOpts, mainLogger, rootCtx, h1, h2, h3, h4, h5, h6]
            · convert MainRun.startFailed e h1 h2 h3 h4 h5 h6 using 1
              simp only [cfgR, collR, bc0, bc1, bc4, mainLogger, mainOpts, rootCtx] at h1 h2 h3 h4 h5 h6
              simp [main, exitIfErr, level.Info, level.Error, emit, os.Exit,
                signal.NotifyContext, clientcmd.BuildConfigFromFlags,
                collector.NewFleetCollector, broadcaster.New, Broadcaster.AddHealthzCheck,
                Broadcaster.AddReadyzCheck, Broadcaster.WithWatcherFor, Broadcaster.Build,
                Broadcaster.Start, done, upToCredentials, upToNew, upToBuild, cfgR, collR,
                mainOpts, mainLogger, rootCtx, h1, h2, h3, h4, h5, h6]
            · convert MainRun.serving h1 h2 h3 h4 h5 h6 using 1
              simp only [cfgR, collR, bc0, bc1, bc4, mainLogger, mainOpts, rootCtx] at h1 h2 h3 h4 h5 h6
              simp [main, exitIfErr, level.Info, level.Error, emit, os.Exit,
                signal.NotifyContext, clientcmd.BuildConfigFromFlags,
                collector.NewFleetCollector, broadcaster.New, Broadcaster.AddHealthzCheck,
                Broadcaster.AddReadyzCheck, Broadcaster.WithWatcherFor, Broadcaster.Build,
                Broadcaster.Start, done, upToCredentials, upToNew, upToBuild, cfgR, collR,
                mainOpts, mainLogger, rootCtx, h1, h2, h3, h4, h5, h6]
          · convert MainRun.build e h1 h2 h3 h4 h5 using 1
            simp only [cfgR, collR, bc0, bc1, bc4, mainLogger, mainOpts, rootCtx] at h1 h2 h3 h4 h5
            simp [main, exitIfErr, level.Info, level.Error, emit, os.Exit,
              signal.NotifyContext, clientcmd.BuildConfigFromFlags,
              collector.NewFleetCollector, broadcaster.New, Broadcaster.AddHealthzCheck,
              Broadcaster.AddReadyzCheck, Broadcaster.WithWatcherFor, Broadcaster.Build,
              Broadcaster.Start, done, upToCredentials, upToNew, upToBuild, cfgR, collR,
              mainOpts, mainLogger, rootCtx, h1, h2, h3, h4, h5]
        · convert MainRun.readyz e h1 h2 h3 h4 using 1
          simp only [cfgR, collR, bc0, bc1, bc4, mainLogger, mainOpts, rootCtx] at h1 h2 h3 h4
          simp [main, exitIfErr, level.Info, level.Error, emit, os.Exit,
            signal.NotifyContext, clientcmd.BuildConfigFromFlags,
            collector.NewFleetCollector, broadcaster.New, Broadcaster.AddHealthzCheck,
            Broadcaster.AddReadyzCheck, Broadcaster.WithWatcherFor, Broadcaster.Build,
            Broadcaster.Start, done, upToCredentials, upToNew, upToBuild, cfgR, collR,
            mainOpts, mainLogger, rootCtx, h1, h2, h3, h4]
      · convert MainRun.healthz e h1 h2 h3 using 1
        simp only [cfgR, collR, bc0, bc1, bc4, mainLogger, mainOpts, rootCtx] at h1 h2 h3
        simp [main, exitIfErr, level.Info, level.Error, emit, os.Exit,
          signal.NotifyContext, clientcmd.BuildConfigFromFlags,
          collector.NewFleetCollector, broadcaster.New, Broadcaster.AddHealthzCheck,
          Broadcaster.AddReadyzCheck, Broadcaster.WithWatcherFor, Broadcaster.Build,
          Broadcaster.Start, done, upToCredentials, upToNew, upToBuild, cfgR, collR,
          mainOpts, mainLogger, rootCtx, h1, h2, h3]
    · convert MainRun.collector e h1 h2 using 1
      simp only [cfgR, collR, bc0, bc1, bc4, mainLogger, mainOpts, rootCtx] at h1 h2
      simp [main, exitIfErr, level.Info, level.Error, emit, os.Exit,
        signal.NotifyContext, clientcmd.BuildConfigFromFlags,
        collector.NewFleetCollector, broadcaster.New, Broadcaster.AddHealthzCheck,
        Broadcaster.AddReadyzCheck, Broadcaster.WithWatcherFor, Broadcaster.Build,
        Broadcaster.Start, done, upToCredentials, upToNew, upToBuild, cfgR, collR,
        mainOpts, mainLogger, rootCtx, h1, h2]
  · convert MainRun.credentials e h1 using 1
    simp only [cfgR, collR, bc0, bc1, bc4, mainLogger, mainOpts, rootCtx] at h1
    simp [main, exitIfErr, level.Info, level.Error, emit, os.Exit,
      signal.NotifyContext, clientcmd.BuildConfigFromFlags,
      collector.NewFleetCollector, broadcaster.New, Broadcaster.AddHealthzCheck,
      Broadcaster.AddReadyzCheck, Broadcaster.WithWatcherFor, Broadcaster.Build,
      Broadcaster.Start, done, upToCredentials, upToNew, upToBuild, cfgR, collR,
      mainOpts, mainLogger, rootCtx, h1]

theorem Engine.enqueueAt_conserved (s : Engine) (key : WorkItemKey) (t r : Nat)
    (h : s.Conserved) : (s.enqueueAt key t r).Conserved := by
  unfold Engine.enqueueAt
  split
  · exact h
  · split
    · exact h
    · split
      · exact h
      · exact h

theorem Engine.requeue_conserved (s : Engine) (e : QueueEntry) (result : ReconcileResult)
    (h : s.Conserved) : (s.requeue e result).Conserved := by
  cases result
  · exact h
  · exact Engine.enqueueAt_conserved _ _ _ _ h
  · exact Engine.enqueueAt_conserved _ _ _ _ h
  · exact Engine.enqueueAt_conserved _ _ _ _ h

theorem Engine.step_conserved (s : Engine) (a : Action) (h : s.Conserved) :
    (s.step a).Conserved := by
  unfold Engine.Conserved at h
  cases a with
  | enqueue key => exact Engine.enqueueAt_conserved _ _ _ _ h
  | tick d => exact h
  | acquire =>
      simp only [Engine.step, Engine.acquire]
      split
      · exact h
      · rename_i hc
        simp only [Bool.or_eq_true, beq_iff_eq, not_or] at hc
        simp only [Engine.Conserved]
        omega
  | dequeue =>
      simp only [Engine.step, Engine.dequeue]
      split
      · exact h
      · rename_i hc
        simp only [Bool.or_eq_true, beq_iff_eq, not_or] at hc
        split
        · exact h
        · simp only [Engine.Conserved, List.length_append, List.length_singleton]
          omega
  | mark key =>
      simp only [Engine.step, Engine.mark]
      split
      · exact h
      · rename_i e hf
        have hmem : e ∈ s.held := List.mem_of_find?_eq_some hf
        have hl := List.length_erase_of_mem hmem
        have hpos : 0 < s.held.length := List.length_pos_of_mem hmem
        simp only [Engine.Conserved, List.length_append, List.length_singleton, hl]
        omega
  | complete key result =>
      simp only [Engine.step, Engine.complete]
      split
      · exact h
      · rename_i e hf
        have hmem : e ∈ s.inFlight := List.mem_of_find?_eq_some hf
        have hrel : (s.release e).Conserved := by
          have hl := List.length_erase_of_mem hmem
          have hpos : 0 < s.inFlight.length := List.length_pos_of_mem hmem
          simp only [Engine.Conserved, Engine.release, hl]
          omega
        have h2 := Engine.requeue_conserved _ e result hrel
        split
        · exact Engine.enqueueAt_conserved _ _ _ _ h2
        · exact h2
  | cancel => exact h

theorem Engine.run_conserved (acts : List Action) :
    ∀ s : Engine, s.Conserved → (s.run acts).Conserved := by
  induction acts with
  | nil => intro s h; exact h
  | cons a rest ih =>
      intro s h
      exact ih (s.step a) (Engine.step_conserved s a h)

theorem Engine.init_conserved (bc : Broadcaster) : (Engine.init bc).Conserved := by
  simp [Engine.Conserved, Engine.init]

/-- Splitting a list at each position, one position at a time. -/
theorem forall_split_cons {α : Type} (x : α) (l : List α)
    (Q : List α → α → List α → Prop) :
    (∀ pre ev post, x :: l = pre ++ ev :: post → Q pre ev post) ↔
      Q [] x l ∧ ∀ pre ev post, l = pre ++ ev :: post → Q (x :: pre) ev post := by
  constructor
  · intro h
    refine ⟨h [] x l rfl, ?_⟩
    intro pre ev post hl
    exact h (x :: pre) ev post (by rw [hl]; rfl)
  · rintro ⟨h0, h1⟩ pre ev post hl
    cases pre with
    | nil =>
        simp only [List.nil_append, List.cons.injEq] at hl
        obtain ⟨rfl, rfl⟩ := hl
        exact h0
    | cons y pre =>
        simp only [List.cons_append, List.cons.injEq] at hl
        obtain ⟨rfl, hl⟩ := hl
        exact h1 pre ev post hl

/-- The empty list has no position to split at. -/
theorem forall_split_nil {α : Type} (Q : List α → α → List α → Prop) :
    (∀ pre ev post, ([] : List α) = pre ++ ev :: post → Q pre ev post) ↔ True := by
  simp

theorem Engine.enqueueAt_ceiling (s : Engine) (key : WorkItemKey) (t r : Nat) :
    (s.enqueueAt key t r).ceiling = s.ceiling := by
  unfold Engine.enqueueAt
  split
  · rfl
  · split
    · rfl
    · split <;> rfl

theorem Engine.step_ceiling (s : Engine) (a : Action) : (s.step a).ceiling = s.ceiling := by
  cases a with
  | enqueue key => exact Engine.enqueueAt_ceiling _ _ _ _
  | tick d => rfl
  | acquire =>
      simp only [Engine.step, Engine.acquire]
      split <;> rfl
  | dequeue =>
      simp only [Engine.step, Engine.dequeue]
      split
      · rfl
      · split <;> rfl
  | mark key =>
      simp only [Engine.step, Engine.mark]
      split <;> rfl
  | complete key result =>
      simp only [Engine.step, Engine.complete]
      split
      · rfl
      · rename_i e _
        have h2 : ((s.release e).requeue e result).ceiling = s.ceiling := by
          cases result <;> simp [Engine.requeue, Engine.enqueueAt_ceiling, Engine.release]
        split
        · rw [Engine.enqueueAt_ceiling, h2]
        · exact h2
  | cancel => rfl

theorem Engine.run_ceiling (acts : List Action) :
    ∀ s : Engine, (s.run acts).ceiling = s.ceiling := by
  induction acts with
  | nil => intro s; rfl
  | cons a rest ih =>
      intro s
      exact (ih (s.step a)).trans (Engine.step_ceiling s a)

/-- The calls of the quiet run before `Build`. -/
theorem quiet_trace : (main World.quiet Flags.defaults).trace =
    [.log .info ["msg", "v0.0.1"], .notifyContext rootCtx,
      .buildConfigFromFlags "" "" none,
      .newFleetCollector rootCtx ⟨"https://cluster"⟩ (15 * Second) none,
      .newBroadcaster ⟨"https://cluster"⟩ ⟨1⟩ ⟨15 * Second, 8090, "0.0.0.0:8095", 5⟩,
      .addHealthzCheck "healthz" healthz.Ping none,
      .addReadyzCheck "readyz" healthz.Ping none,
      .withWatcherFor .Fleet, .withWatcherFor .FleetAutoscaler]
      ++ Event.build [.Fleet, .FleetAutoscaler] none ::
      [.log .info ["msg", "starting fleet garbage collector"], .start rootCtx,
        .startReturned none, .done rootCtx] := by
  simp [main, exitIfErr, World.quiet, Flags.defaults, rootCtx]

/-! ## The claims -/

/-- C1: in every run of `main`, if `bc.Build()` returns a non-nil error then
`exitIfErr` ends the process with status 1 and `bc.Start` is never called; and
wherever `bc.Start` is called, `bc.Build()` has returned nil before it. -/
theorem C1_start_only_after_build (w : World) (f : Flags) :
    (∀ regs e, Event.build regs (some e) ∈ (main w f).trace →
      (main w f).outcome = .exited 1 ∧ Event.exit 1 ∈ (main w f).trace ∧
        ∀ ctx, Event.start ctx ∉ (main w f).trace) ∧
    (∀ pre post ctx, (main w f).trace = pre ++ Event.start ctx :: post →
      (∃ regs, Event.build regs none ∈ pre) ∧ ∀ regs e, Event.build regs (some e) ∉ pre) := by
  have hr := main_run w f
  generalize main w f = p at hr
  constructor
  · intro regs e h
    cases hr <;> simp [upToCredentials, upToNew, upToBuild] at h ⊢
  · have key : ∀ pre ev post, p.trace = pre ++ ev :: post → ∀ ctx, ev = Event.start ctx →
        (∃ regs, Event.build regs none ∈ pre) ∧
          ∀ regs e, Event.build regs (some e) ∉ pre := by
      cases hr <;>
        simp only [upToCredentials, upToNew, upToBuild, List.cons_append, List.nil_append,
          List.append_assoc, forall_split_cons, forall_split_nil] <;>
        simp
    intro pre post ctx h
    exact key pre _ post h ctx rfl

/-- C1 at a run whose `Build` fails: the process exits with status 1 and
`Start` is not called. -/
theorem C1_start_only_after_build_witness :
    (main World.buildFails Flags.defaults).outcome = .exited 1 ∧
      Event.exit 1 ∈ (main World.buildFails Flags.defaults).trace ∧
      ∀ ctx, Event.start ctx ∉ (main World.buildFails Flags.defaults).trace :=
  (C1_start_only_after_build World.buildFails Flags.defaults).1
    [.Fleet, .FleetAutoscaler] "invalid configuration" (by
      simp [main, exitIfErr, World.buildFails, World.quiet, Flags.defaults])

/-- C2: in every run of `main` that reaches `bc.Build()`, the registrations
made before it are exactly Fleet then FleetAutoscaler, these are the
registrations `Build` sees (a non-empty list), and no registration follows. -/
theorem C2_two_registrations_before_build (w : World) (f : Flags) (pre post : List Event)
    (regs : List ResourceKind) (r : Option Error)
    (h : (main w f).trace = pre ++ Event.build regs r :: post) :
    registrations pre = [.Fleet, .FleetAutoscaler] ∧ regs = [.Fleet, .FleetAutoscaler] ∧
      regs ≠ [] ∧ registrations post = [] := by
  have hr := main_run w f
  generalize main w f = p at h hr
  have key : ∀ pre ev post, p.trace = pre ++ ev :: post → ∀ regs r, ev = Event.build regs r →
      registrations pre = [.Fleet, .FleetAutoscaler] ∧ regs = [.Fleet, .FleetAutoscaler] ∧
        regs ≠ [] ∧ registrations post = [] := by
    cases hr <;>
      simp only [upToCredentials, upToNew, upToBuild, List.cons_append, List.nil_append,
        List.append_assoc, forall_split_cons, forall_split_nil] <;>
      simp [registrations]
  exact key pre _ post h regs r rfl

/-- C2 at the quiet run. -/
theorem C2_two_registrations_before_build_witness :
    registrations [.log .info ["msg", "v0.0.1"], .notifyContext rootCtx,
      .buildConfigFromFlags "" "" none,
      .newFleetCollector rootCtx ⟨"https://cluster"⟩ (15 * Second) none,
      .newBroadcaster ⟨"https://cluster"⟩ ⟨1⟩ ⟨15 * Second, 8090, "0.0.0.0:8095", 5⟩,
      .addHealthzCheck "healthz" healthz.Ping none,
      .addReadyzCheck "readyz" healthz.Ping none,
      .withWatcherFor .Fleet, .withWatcherFor .FleetAutoscaler] = [.Fleet, .FleetAutoscaler] ∧
    [ResourceKind.Fleet, .FleetAutoscaler] = [.Fleet, .FleetAutoscaler] ∧
    [ResourceKind.Fleet, .FleetAutoscaler] ≠ [] ∧
    registrations [.log .info ["msg", "starting fleet garbage collector"], .start rootCtx,
        .startReturned none, .done rootCtx] = [] :=
  C2_two_registrations_before_build World.quiet Flags.defaults _ _ _ _ quiet_trace

/-- C3: every run of `main` loads the credentials; when that succeeds it
constructs the collector with the sync-period flag, and when that succeeds it
calls `broadcaster.New` with a `broadcaster.Config` whose `SyncPeriod` is the
sync-period flag and whose `MaxConcurrentReconcile` is the max-concurrent
flag; no call of the collector constructor or of `broadcaster.New` in the run
carries other values; the flag values are what the parser returns for the
given text, and for a command line without the two flags they are 15 seconds
and 5. -/
theorem C3_flags_reach_core (w : World) (f : Flags) :
    Event.buildConfigFromFlags "" f.kubeconfig (w.BuildConfigFromFlags "" f.kubeconfig).2 ∈
      (main w f).trace ∧
    ((w.BuildConfigFromFlags "" f.kubeconfig).2 = none →
      Event.newFleetCollector rootCtx (cfgR w f).1 f.syncPeriod (collR w f).2 ∈
        (main w f).trace) ∧
    ((w.BuildConfigFromFlags "" f.kubeconfig).2 = none → (collR w f).2 = none →
      Event.newBroadcaster (cfgR w f).1 (collR w f).1
        ⟨f.syncPeriod, 8090, "0.0.0.0:8095", f.maxConcurrent⟩ ∈ (main w f).trace) ∧
    (∀ cfg broker opts, Event.newBroadcaster cfg broker opts ∈ (main w f).trace →
      opts.SyncPeriod = f.syncPeriod ∧ opts.MaxConcurrentReconcile = f.maxConcurrent) ∧
    (∀ ctx cfg period err, Event.newFleetCollector ctx cfg period err ∈ (main w f).trace →
      period = f.syncPeriod) ∧
    (∀ url path, Event.buildConfigFromFlags url path none ∈ (main w f).trace →
      ∃ ctx cfg err, Event.newFleetCollector ctx cfg f.syncPeriod err ∈ (main w f).trace) ∧
    (∀ ctx cfg period, Event.newFleetCollector ctx cfg period none ∈ (main w f).trace →
      ∃ cfg broker, Event.newBroadcaster cfg broker
        ⟨f.syncPeriod, 8090, "0.0.0.0:8095", f.maxConcurrent⟩ ∈ (main w f).trace) ∧
    (∀ cl, kingpin.Parse w cl = some f →
      (∀ s, cl.syncPeriod = some s → w.ParseDuration s = some f.syncPeriod) ∧
      (∀ s, cl.maxConcurrent = some s → w.ParseInt s = some f.maxConcurrent) ∧
      (cl.syncPeriod = none → w.ParseDuration "15s" = some (15 * Second) →
        f.syncPeriod = 15 * Second) ∧
      (cl.maxConcurrent = none → w.ParseInt "5" = some 5 → f.maxConcurrent = 5)) ∧
    (∀ cl, cl.syncPeriod = none → cl.maxConcurrent = none →
      w.ParseDuration "15s" = some (15 * Second) → w.ParseInt "5" = some 5 →
      ∃ f0, kingpin.Parse w cl = some f0 ∧ f0.syncPeriod = 15 * Second ∧
        f0.maxConcurrent = 5) := by
  have hr := main_run w f
  generalize main w f = p at hr
  refine ⟨?_, ?_, ?_, ?_, ?_, ?_, ?_, ?_, ?_⟩
  · cases hr <;> simp_all [upToCredentials, upToNew, upToBuild, cfgR]
  · intro h1
    cases hr <;> simp_all [upToCredentials, upToNew, upToBuild, cfgR]
  · intro h1 h2
    cases hr <;> simp_all [upToCredentials, upToNew, upToBuild, cfgR, mainOpts]
  · intro cfg broker opts h
    cases hr <;> simp [upToCredentials, upToNew, upToBuild] at h <;>
      (obtain ⟨_, _, rfl⟩ := h; simp [mainOpts])
  · intro ctx cfg period err h
    cases hr <;> simp [upToCredentials, upToNew, upToBuild] at h <;> exact h.2.2.1
  · intro url path h
    cases hr <;> simp [upToCredentials, upToNew, upToBuild] at h ⊢
  · intro ctx cfg period h
    cases hr <;> simp [upToCredentials, upToNew, upToBuild, mainOpts] at h ⊢
  · intro cl h
    unfold kingpin.Parse at h
    split at h
    · rename_i period concurrent hp hc
      simp only [Option.some.injEq] at h
      subst h
      refine ⟨?_, ?_, ?_, ?_⟩
      · intro s hs; simpa [hs] using hp
      · intro s hs; simpa [hs] using hc
      · intro hs h15
        simp only [hs, Option.getD_none, h15, Option.some.injEq] at hp
        exact hp.symm
      · intro hs h5
        simp only [hs, Option.getD_none, h5, Option.some.injEq] at hc
        exact hc.symm
    · exact absurd h (by simp)
  · intro cl hs hm h15 h5
    simp [kingpin.Parse, hs, hm, h15, h5]

/-- C3 at the quiet world and a command line without flags: the parsed flags
are 15 seconds and 5, the run of `main` with them constructs the collector
with 15 seconds and hands `broadcaster.New` a configuration with 15 seconds
and 5. -/
theorem C3_flags_reach_core_witness :
    (∃ f0, kingpin.Parse World.quiet CommandLine.empty = some f0 ∧
      f0.syncPeriod = 15 * Second ∧ f0.maxConcurrent = 5) ∧
    Event.newFleetCollector rootCtx ⟨"https://cluster"⟩ (15 * Second) none ∈
      (main World.quiet Flags.defaults).trace ∧
    Event.newBroadcaster ⟨"https://cluster"⟩ ⟨1⟩ ⟨15 * Second, 8090, "0.0.0.0:8095", 5⟩ ∈
      (main World.quiet Flags.defaults).trace :=
  ⟨(C3_flags_reach_core World.quiet Flags.defaults).2.2.2.2.2.2.2.2 CommandLine.empty rfl rfl
      (by simp [World.quiet]) (by simp [World.quiet]),
    (C3_flags_reach_core World.quiet Flags.defaults).2.1 rfl,
    (C3_flags_reach_core World.quiet Flags.defaults).2.2.1 rfl rfl⟩

/-- C4: with the core of the specification behind `Build`, a configuration
whose concurrency ceiling is zero or negative, or whose sync period is zero,
is rejected by `Build`; every run of `main` with such flag values ends with
exit status 1 without calling `Start`, `Build` returns an error wherever it is
called, and it is called as soon as the steps before it succeed. -/
theorem C4_invalid_configuration_rejected (w : World) (f : Flags)
    (hB : w.Build = Lifecycle.Build)
    (hbad : f.maxConcurrent ≤ 0 ∨ f.syncPeriod = 0) :
    (∀ bc : Broadcaster, bc.opts.MaxConcurrentReconcile ≤ 0 ∨ bc.opts.SyncPeriod = 0 →
      ∃ e, Lifecycle.Build bc = some e) ∧
    (main w f).outcome = .exited 1 ∧
    (∀ ctx, Event.start ctx ∉ (main w f).trace) ∧
    (∀ regs r, Event.build regs r ∈ (main w f).trace → ∃ e, r = some e) ∧
    (∀ name check, Event.addReadyzCheck name check none ∈ (main w f).trace →
      ∃ regs e, Event.build regs (some e) ∈ (main w f).trace) := by
  have hrej : ∀ bc : Broadcaster,
      bc.opts.MaxConcurrentReconcile ≤ 0 ∨ bc.opts.SyncPeriod = 0 →
        ∃ e, Lifecycle.Build bc = some e := by
    intro bc h
    unfold Lifecycle.Build
    split
    · exact ⟨_, rfl⟩
    · split
      · exact ⟨_, rfl⟩
      · rename_i hc
        have hs : bc.opts.SyncPeriod = 0 := by
          rcases h with h | h
          · exact absurd h hc
          · exact h
        simp [hs]
  have hbuild : ∃ e, w.Build (bc4 w f) = some e := by
    rw [hB]
    exact hrej _ hbad
  obtain ⟨e0, he0⟩ := hbuild
  have hr := main_run w f
  generalize main w f = p at hr
  refine ⟨hrej, ?_⟩
  cases hr <;> simp_all [upToCredentials, upToNew, upToBuild]

/-- C4 at a run with `--max-concurrent=0` against the specified core. -/
theorem C4_invalid_configuration_rejected_witness :
    (main World.withCore ⟨false, "", 15 * Second, 0⟩).outcome = .exited 1 ∧
      ∀ ctx, Event.start ctx ∉ (main World.withCore ⟨false, "", 15 * Second, 0⟩).trace :=
  have h := C4_invalid_configuration_rejected World.withCore ⟨false, "", 15 * Second, 0⟩
    rfl (Or.inl (by decide))
  ⟨h.2.1, h.2.2.1⟩

/-- C5: every run of `main` creates exactly one context, the one derived from
the background context that the interrupt signal and SIGTERM cancel (and no
other signal); every context passed to the collector constructor or to
`bc.Start` is that one, and the collector constructor is given it as soon as
credential loading succeeds. -/
theorem C5_single_root_context (w : World) (f : Flags) :
    contextsCreated (main w f).trace = [.Notify .Background [os.Interrupt, syscall.SIGTERM]] ∧
    (∀ s, Context.cancelledBy (.Notify .Background [os.Interrupt, syscall.SIGTERM]) s = true ↔
      s = os.Interrupt ∨ s = syscall.SIGTERM) ∧
    (∀ e ∈ (main w f).trace, ∀ ctx, contextPassed e = some ctx →
      ctx = .Notify .Background [os.Interrupt, syscall.SIGTERM]) ∧
    (∀ url path, Event.buildConfigFromFlags url path none ∈ (main w f).trace →
      ∃ cfg period err, Event.newFleetCollector
        (.Notify .Background [os.Interrupt, syscall.SIGTERM]) cfg period err ∈
          (main w f).trace) ∧
    (∀ regs, Event.build regs none ∈ (main w f).trace →
      Event.start (.Notify .Background [os.Interrupt, syscall.SIGTERM]) ∈ (main w f).trace) := by
  have hr := main_run w f
  generalize main w f = p at hr
  refine ⟨?_, ?_, ?_, ?_, ?_⟩
  · cases hr <;> simp [upToCredentials, upToNew, upToBuild, contextsCreated, rootCtx]
  · intro s
    simp [Context.cancelledBy]
  · cases hr <;> simp [upToCredentials, upToNew, upToBuild, contextPassed, rootCtx]
  · intro url path h
    cases hr <;> simp [upToCredentials, upToNew, upToBuild, rootCtx] at h ⊢
  · intro regs h
    cases hr <;> simp [upToCredentials, upToNew, upToBuild, rootCtx] at h ⊢

/-- C5 at the quiet run: the one context is passed to `Start`. -/
theorem C5_single_root_context_witness :
    Event.start (.Notify .Background [os.Interrupt, syscall.SIGTERM]) ∈
      (main World.quiet Flags.defaults).trace :=
  (C5_single_root_context World.quiet Flags.defaults).2.2.2.2 [.Fleet, .FleetAutoscaler]
    (by simp [main, exitIfErr, World.quiet, Flags.defaults])

/-- C6 refuted as stated: in the run without cluster credentials the process
exits with status 1 although `bc.Build()` returned no error (it was never
called). -/
theorem C6_only_build_terminates_counterexample :
    ¬ ((∃ code, code ≠ 0 ∧ exitStatus (main World.noCredentials Flags.defaults) = some code) →
      ∃ regs e, Event.build regs (some e) ∈ (main World.noCredentials Flags.defaults).trace) := by
  simp [main, exitIfErr, exitStatus, World.noCredentials, World.quiet, Flags.defaults]

/-- C6 as amended: in every run of `main` in which `kingpin.Parse()` has
returned, whatever flag values `f` it produced, the process exits with a
failure status exactly when one of the six checked steps (credential loading,
collector construction, liveness and readiness check registration, `Build`,
`Start`) returned an error; the status is then 1, and an error of `Build` is
one of these causes. -/
theorem C6_failed_step_terminates (w : World) (f : Flags) :
    ((∃ code, code ≠ 0 ∧ exitStatus (main w f) = some code) ↔
      ∃ ev ∈ (main w f).trace, ∃ e, stepError ev = some e) ∧
    (∀ code, code ≠ 0 → exitStatus (main w f) = some code → code = 1) ∧
    (∀ regs e, Event.build regs (some e) ∈ (main w f).trace →
      exitStatus (main w f) = some 1) := by
  have hr := main_run w f
  generalize main w f = p at hr
  refine ⟨?_, ?_, ?_⟩
  · cases hr <;> simp [upToCredentials, upToNew, upToBuild, stepError, exitStatus]
  · intro code h0 h
    cases hr <;> simp [exitStatus] at h <;> first | exact h.symm | exact absurd h.symm h0
  · intro regs e h
    cases hr <;> simp [upToCredentials, upToNew, upToBuild, exitStatus] at h ⊢

/-- C6 as amended, at the run whose `Build` fails. -/
theorem C6_failed_step_terminates_witness :
    exitStatus (main World.buildFails Flags.defaults) = some 1 :=
  (C6_failed_step_terminates World.buildFails Flags.defaults).2.2
    [.Fleet, .FleetAutoscaler] "invalid configuration" (by
      simp [main, exitIfErr, World.buildFails, World.quiet, Flags.defaults])

/-- C7: the liveness check is registered under "healthz" and the readiness
check under "readyz", both with `healthz.Ping`, which returns nil for every
request; each registration is made once the step before it succeeds; and when
either registration returns an error the process exits with status 1 with no
watcher registered and neither `Build` nor `Start` called. -/
theorem C7_ping_checks (w : World) (f : Flags) :
    (∀ name check err, Event.addHealthzCheck name check err ∈ (main w f).trace →
      name = "healthz" ∧ check = healthz.Ping) ∧
    (∀ name check err, Event.addReadyzCheck name check err ∈ (main w f).trace →
      name = "readyz" ∧ check = healthz.Ping) ∧
    (∀ req, healthz.Ping req = none) ∧
    (∀ cfg broker opts, Event.newBroadcaster cfg broker opts ∈ (main w f).trace →
      ∃ err, Event.addHealthzCheck "healthz" healthz.Ping err ∈ (main w f).trace) ∧
    (∀ name check, Event.addHealthzCheck name check none ∈ (main w f).trace →
      ∃ err, Event.addReadyzCheck "readyz" healthz.Ping err ∈ (main w f).trace) ∧
    (∀ name check e, Event.addHealthzCheck name check (some e) ∈ (main w f).trace ∨
        Event.addReadyzCheck name check (some e) ∈ (main w f).trace →
      (main w f).outcome = .exited 1 ∧ Event.exit 1 ∈ (main w f).trace ∧
        registrations (main w f).trace = [] ∧
        (∀ regs r, Event.build regs r ∉ (main w f).trace) ∧
        ∀ ctx, Event.start ctx ∉ (main w f).trace) := by
  have hr := main_run w f
  generalize main w f = p at hr
  refine ⟨?_, ?_, fun _ => rfl, ?_, ?_, ?_⟩
  · intro name check err h
    cases hr <;> simp [upToCredentials, upToNew, upToBuild] at h <;> exact ⟨h.1, h.2.1⟩
  · intro name check err h
    cases hr <;> simp [upToCredentials, upToNew, upToBuild] at h <;> exact ⟨h.1, h.2.1⟩
  · intro cfg broker opts h
    cases hr <;> simp [upToCredentials, upToNew, upToBuild] at h ⊢
  · intro name check h
    cases hr <;> simp [upToCredentials, upToNew, upToBuild] at h ⊢
  · intro name check e h
    cases hr <;> simp [upToCredentials, upToNew, upToBuild, registrations] at h ⊢

/-- C7 at the run whose liveness registration fails. -/
theorem C7_ping_checks_witness :
    (main World.healthzFails Flags.defaults).outcome = .exited 1 ∧
      Event.exit 1 ∈ (main World.healthzFails Flags.defaults).trace ∧
      registrations (main World.healthzFails Flags.defaults).trace = [] ∧
      (∀ regs r, Event.build regs r ∉ (main World.healthzFails Flags.defaults).trace) ∧
      ∀ ctx, Event.start ctx ∉ (main World.healthzFails Flags.defaults).trace :=
  (C7_ping_checks World.healthzFails Flags.defaults).2.2.2.2.2
    "healthz" healthz.Ping "already started" (Or.inl (by
      simp [main, exitIfErr, World.healthzFails, World.quiet, Flags.defaults]))

/-- C8: in every execution of the specified core started from a broadcaster
that `Build` accepted (so that `N = MaxConcurrentReconcile` is positive; no
execution starts otherwise), the number of dispatches in flight is at most `N`
after every operation; in particular for the broadcaster `main` starts, where
`N` is the max-concurrent flag. -/
theorem C8_concurrency_ceiling (bc : Broadcaster) (hB : Lifecycle.Build bc = none)
    (acts : List Action) :
    (((Engine.init bc).run acts).inFlightCount : Int) ≤ bc.opts.MaxConcurrentReconcile ∧
    (∀ w f, bc = bc4 w f →
      (((Engine.init bc).run acts).inFlightCount : Int) ≤ f.maxConcurrent) := by
  have hsum := Engine.run_conserved acts (Engine.init bc) (Engine.init_conserved bc)
  have hc := Engine.run_ceiling acts (Engine.init bc)
  unfold Engine.Conserved at hsum
  rw [hc] at hsum
  have hpos : 0 < bc.opts.MaxConcurrentReconcile := by
    unfold Lifecycle.Build at hB
    split at hB
    · exact absurd hB (by simp)
    · split at hB
      · exact absurd hB (by simp)
      · rename_i h
        exact not_le.mp h
  have hn : ((Engine.init bc).ceiling : Int) = bc.opts.MaxConcurrentReconcile := by
    simp only [Engine.init]
    exact Int.toNat_of_nonneg hpos.le
  have hle : (((Engine.init bc).run acts).inFlightCount : Int) ≤
      bc.opts.MaxConcurrentReconcile := by
    unfold Engine.inFlightCount
    omega
  refine ⟨hle, ?_⟩
  intro w f hbc
  have hopts : bc.opts.MaxConcurrentReconcile = f.maxConcurrent := by
    rw [hbc]
    rfl
  rw [← hopts]
  exact hle

/-- C8 at a ceiling of 2 with three keys and three workers competing. -/
theorem C8_concurrency_ceiling_witness :
    (((Engine.init bcTwo).run busyTwo).inFlightCount : Int) ≤ 2 ∧
      ((Engine.init bcTwo).run busyTwo).inFlightCount = 2 :=
  ⟨(C8_concurrency_ceiling bcTwo (by decide) busyTwo).1, by decide⟩

/-- C10: `main` returns normally exactly when credential loading, collector
construction, both check registrations, `Build` and `Start` all returned nil;
when one of them returns an error, the only calls after it are the error log
and `os.Exit(1)`, and the process exits with status 1; `exitIfErr` with a nil
error makes no call and continues, and with a non-nil error it logs and exits
with status 1. -/
theorem C10_exit_status (w : World) (f : Flags) :
    (((main w f).outcome = .continues () ∧ exitStatus (main w f) = some 0) ↔
      (∃ url path, Event.buildConfigFromFlags url path none ∈ (main w f).trace) ∧
      (∃ ctx cfg period, Event.newFleetCollector ctx cfg period none ∈ (main w f).trace) ∧
      (∃ name check, Event.addHealthzCheck name check none ∈ (main w f).trace) ∧
      (∃ name check, Event.addReadyzCheck name check none ∈ (main w f).trace) ∧
      (∃ regs, Event.build regs none ∈ (main w f).trace) ∧
      Event.startReturned none ∈ (main w f).trace) ∧
    (∀ pre ev post, (main w f).trace = pre ++ ev :: post → ∀ e, stepError ev = some e →
      exitStatus (main w f) = some 1 ∧
        ∃ key, post = [.log .error [key, e], .exit 1]) ∧
    (∀ logger, exitIfErr logger none = ⟨[], .continues ()⟩) ∧
    (∀ logger e, exitIfErr logger (some e) =
      ⟨[.log .error ["err", e], .exit 1], .exited 1⟩) := by
  have hr := main_run w f
  generalize main w f = p at hr
  refine ⟨?_, ?_, fun _ => rfl, fun _ _ => rfl⟩
  · cases hr <;> simp [upToCredentials, upToNew, upToBuild, exitStatus]
  · cases hr <;>
      simp only [upToCredentials, upToNew, upToBuild, List.cons_append, List.nil_append,
        List.append_assoc, forall_split_cons, forall_split_nil] <;>
      simp [stepError, exitStatus]

/-- C10 at the quiet run: every step returned nil and `main` returns. -/
theorem C10_exit_status_witness :
    (main World.quiet Flags.defaults).outcome = .continues () ∧
      exitStatus (main World.quiet Flags.defaults) = some 0 :=
  (C10_exit_status World.quiet Flags.defaults).1.2 (by
    simp [main, exitIfErr, World.quiet, Flags.defaults])

end FleetGC
